import Mathlib

/-!
Verification of the trip-planner backend (an Express + Prisma service)
against its specification.

The JavaScript source is shallowly embedded.  Each request handler becomes a
pure Lean function over an explicit environment (the upstream HTTP responses,
the places API key, a database-failure flag) and an explicit store; it
returns the HTTP response together with the updated store and the list of
outbound HTTP calls issued while handling the request.  JavaScript values
that may be absent (missing JSON properties) are modelled with `Option`;
JavaScript numbers are modelled with `Rat` (so that the zod integrality
check on `budget` is meaningful); thrown exceptions are modelled with
`Except`.
-/

namespace TripPlanner

/-- JS `a || b` for an optional string `a`: both absence and the empty
string are falsy, so either falls through to `b`. -/
def orFalsy (a : Option String) (b : String) : String :=
  match a with
  | some s => if s = "" then b else s
  | none => b

/-- JS `a || null` for an optional string: an empty string collapses to null. -/
def orNull (a : Option String) : Option String :=
  match a with
  | some s => if s = "" then none else some s
  | none => none

/-- The body of a POST /api/trips/plan request as the handler receives it:
every field may be absent (or of the wrong JSON type, which the zod schema
rejects just like absence). -/
structure ReqBody where
  userId : Option String
  destination : Option String
  startDate : Option String
  endDate : Option String
  budget : Option Rat
  vibe : Option String
deriving Repr, DecidableEq

/-- The five-value vibe enumeration of the zod schema. -/
def vibes : List String := ["techno", "nature", "relax", "food", "mixed"]

/-- A successfully parsed plan request (the output of the zod schema). -/
structure PlanInput where
  userId : String
  destination : String
  startDate : String
  endDate : String
  budget : Int
  vibe : String
deriving Repr, DecidableEq

/-- zod `userId: z.string().min(1)`. -/
def checkUserId (b : ReqBody) : Bool :=
  match b.userId with
  | some s => 1 ≤ s.length
  | none => false

/-- zod `destination: z.string().min(2)`. -/
def checkDestination (b : ReqBody) : Bool :=
  match b.destination with
  | some s => 2 ≤ s.length
  | none => false

/-- zod `startDate: z.string().min(8)`. -/
def checkStartDate (b : ReqBody) : Bool :=
  match b.startDate with
  | some s => 8 ≤ s.length
  | none => false

/-- zod `endDate: z.string().min(8)`. -/
def checkEndDate (b : ReqBody) : Bool :=
  match b.endDate with
  | some s => 8 ≤ s.length
  | none => false

/-- zod `budget: z.number().int().positive()`: an integral, strictly
positive number. -/
def checkBudget (b : ReqBody) : Bool :=
  match b.budget with
  | some q => q.den == 1 && decide (0 < q)
  | none => false

/-- zod `vibe: z.enum([...])`. -/
def checkVibe (b : ReqBody) : Bool :=
  match b.vibe with
  | some v => vibes.contains v
  | none => false

/-- The field-level detail of `parsed.error.flatten()`: the names of the
fields whose zod checks failed, in schema order. -/
def fieldErrors (b : ReqBody) : List String :=
  (if checkUserId b then [] else ["userId"]) ++
  (if checkDestination b then [] else ["destination"]) ++
  (if checkStartDate b then [] else ["startDate"]) ++
  (if checkEndDate b then [] else ["endDate"]) ++
  (if checkBudget b then [] else ["budget"]) ++
  (if checkVibe b then [] else ["vibe"])

/-- `PlanTripSchema.safeParse(req.body)`: success exactly when every field
check passes, failure carrying the field-level detail. -/
def safeParse (b : ReqBody) : Except (List String) PlanInput :=
  if fieldErrors b = [] then
    .ok ⟨b.userId.getD "", b.destination.getD "", b.startDate.getD "",
         b.endDate.getD "", (b.budget.getD 0).num, b.vibe.getD ""⟩
  else
    .error (fieldErrors b)

/-- The normalized record `geocodeCity` builds from the top geocoding
result (`top.name`, `top.country`, coordinates and timezone). -/
structure GeoTop where
  name : String
  country : String
  latitude : Rat
  longitude : Rat
  timezone : Option String
deriving Repr, DecidableEq

/-- The parameter object handed to `fetchPlaces`. -/
structure PlacesParams where
  lon : Rat
  lat : Rat
  radiusMeters : Nat
  categories : String
  limit : Nat
deriving Repr, DecidableEq

/-- An outbound HTTP call issued by the backend while handling a request. -/
inductive Call where
  | geocodeReq (destination : String)
  | weatherReq (latitude longitude : Rat) (timezone : String)
  | placesReq (params : PlacesParams)
deriving Repr, DecidableEq

/-- The `daily` object of the forecast response; each array may be absent. -/
structure DailyRaw where
  time : Option (List String)
  temperature_2m_max : Option (List Rat)
  temperature_2m_min : Option (List Rat)
  precipitation_sum : Option (List Rat)
deriving Repr, DecidableEq

/-- The normalized forecast `fetchWeather` returns: parallel arrays with
missing upstream arrays defaulted to empty. -/
structure Weather where
  time : List String
  tempMax : List Rat
  tempMin : List Rat
  precipitation : List Rat
deriving Repr, DecidableEq

/-- The defaulting `fetchWeather` applies to `data?.daily`. -/
def dailyOf (d : Option DailyRaw) : Weather :=
  ⟨(d.bind DailyRaw.time).getD [],
   (d.bind DailyRaw.temperature_2m_max).getD [],
   (d.bind DailyRaw.temperature_2m_min).getD [],
   (d.bind DailyRaw.precipitation_sum).getD []⟩

/-- The `properties` object of a GeoJSON feature returned by the places
service; every property may be absent. -/
structure FeatureProps where
  place_id : Option String
  name : Option String
  address_line1 : Option String
  address_line2 : Option String
  city : Option String
  country : Option String
  distance : Option Rat
  categories : Option (List String)
  website : Option String
  opening_hours : Option String
deriving Repr, DecidableEq

/-- A properties object with every property absent (the JS literal used for
the `f.properties || {}` default). -/
def emptyProps : FeatureProps :=
  ⟨none, none, none, none, none, none, none, none, none, none⟩

/-- A GeoJSON feature: its `properties` object and its
`geometry?.coordinates` array may each be absent. -/
structure Feature where
  properties : Option FeatureProps
  coordinates : Option (List Rat)
deriving Repr, DecidableEq

/-- The normalized place record `fetchPlaces` produces per feature. -/
structure PlaceRec where
  placeId : Option String
  name : String
  categories : List String
  addressLine1 : String
  addressLine2 : String
  city : String
  country : String
  distanceMeters : Option Rat
  locationLon : Option Rat
  locationLat : Option Rat
  website : Option String
  openingHours : Option String
deriving Repr, DecidableEq

/-- The per-feature normalization inside `fetchPlaces`:
`p.name || p.address_line1 || "Unknown place"`, `p.categories || []`,
`p.distance ?? null`, `p.website || null`, and so on. -/
def normalizeFeature (f : Feature) : PlaceRec :=
  let p := f.properties.getD emptyProps
  let coords := f.coordinates.getD []
  { placeId := p.place_id
    name := orFalsy p.name (orFalsy p.address_line1 "Unknown place")
    categories := p.categories.getD []
    addressLine1 := p.address_line1.getD ""
    addressLine2 := p.address_line2.getD ""
    city := p.city.getD ""
    country := p.country.getD ""
    distanceMeters := p.distance
    locationLon := coords.get? 0
    locationLat := coords.get? 1
    website := orNull p.website
    openingHours := orNull p.opening_hours }

/-- The environment a request runs in: the upstream services (as response
oracles keyed by the request each would receive), the places API key from
the process environment, and whether the database fails. -/
structure Env where
  geocodeResp : String → Except Nat (Option (List GeoTop))
  weatherResp : Rat → Rat → String → Except Nat (Option DailyRaw)
  placesResp : PlacesParams → Except Nat (Option (List Feature))
  apiKey : Option String
  dbFail : Bool

/-- `geocodeCity(destination)`: issues the geocoding request, throws on a
non-success status, otherwise takes `data?.results?.[0]` and returns null
when there is none.  The second component is the list of outbound calls. -/
def geocodeCity (env : Env) (destination : String) :
    Except String (Option GeoTop) × List Call :=
  match env.geocodeResp destination with
  | .error status =>
      (.error ("Geocoding failed with status " ++ toString status),
       [.geocodeReq destination])
  | .ok results =>
      (.ok (results.getD []).head?, [.geocodeReq destination])

/-- `fetchWeather(latitude, longitude, timezone)`: the URL uses
`timezone || "auto"`; a non-success status throws; otherwise the daily
arrays are extracted with empty defaults. -/
def fetchWeather (env : Env) (lat lon : Rat) (tz : Option String) :
    Except String Weather × List Call :=
  let tzStr := orFalsy tz "auto"
  match env.weatherResp lat lon tzStr with
  | .error status =>
      (.error ("Weather failed with status " ++ toString status),
       [.weatherReq lat lon tzStr])
  | .ok d => (.ok (dailyOf d), [.weatherReq lat lon tzStr])

/-- `fetchPlaces({lon, lat, radiusMeters, categories, limit})`: the API key
is read from the process environment and checked before the HTTP request is
built and issued, so a missing key throws with an empty call list; a
non-success status throws; otherwise `data?.features ?? []` is normalized
feature by feature. -/
def fetchPlaces (apiKey : Option String) (params : PlacesParams)
    (resp : Except Nat (Option (List Feature))) :
    Except String (List PlaceRec) × List Call :=
  match apiKey with
  | none => (.error "Missing GEOAPIFY_API_KEY in backend/.env", [])
  | some _ =>
      match resp with
      | .error status =>
          (.error ("Geoapify Places failed with status " ++ toString status),
           [.placesReq params])
      | .ok fs => (.ok ((fs.getD []).map normalizeFeature), [.placesReq params])

/-- The `destination` object of the assembled plan document. -/
structure PlanDestination where
  query : String
  resolved : String
  latitude : Rat
  longitude : Rat
  timezone : Option String
deriving Repr, DecidableEq

/-- The `trip` object of the plan document: an echo of the validated input. -/
structure PlanTripEcho where
  startDate : String
  endDate : String
  budget : Int
  vibe : String
deriving Repr, DecidableEq

/-- The plan document the orchestrator assembles and stores as `planJson`. -/
structure PlanJson where
  destination : PlanDestination
  trip : PlanTripEcho
  weatherDaily : Weather
  restaurants : List PlaceRec
  attractions : List PlaceRec
  summary : String
  nextIdeas : List String
deriving Repr, DecidableEq

/-- A valid JavaScript Date value as the store receives it: the calendar
components parsed from the date string by `new Date(...)`. -/
structure JsDate where
  year : Nat
  month : Nat
  day : Nat
deriving Repr, DecidableEq

/-- Split a character list at every occurrence of the separator. -/
def splitChar (c : Char) : List Char → List (List Char)
  | [] => [[]]
  | x :: xs =>
    match splitChar c xs with
    | [] => if x = c then [[], []] else [[x]]
    | h :: t => if x = c then [] :: h :: t else (x :: h) :: t

/-- The numeric value of a run of decimal digit characters accumulated onto
`acc`; `none` as soon as a non-digit appears. -/
def digitsVal : List Char → Nat → Option Nat
  | [], acc => some acc
  | ch :: cs, acc =>
    if ch.isDigit then digitsVal cs (acc * 10 + (ch.toNat - 48)) else none

/-- A numeric date-component field: `none` when empty or not all digits. -/
def natField (l : List Char) : Option Nat :=
  match l with
  | [] => none
  | _ => digitsVal l 0

/-- `new Date(s)` on a date string, modelled on the ECMA-262 date time
string format: a four-digit `YYYY-MM-DD` date with month 01-12 and day
01-31, optionally followed by a `T...` time suffix (whose components are
not retained here); any other string yields an Invalid Date, modelled as
`none`.  The engine's further implementation-defined fallback formats are
not modelled. -/
def jsNewDate (s : String) : Option JsDate :=
  match splitChar '-' ((splitChar 'T' s.data).head?.getD []) with
  | [y, m, d] =>
    match natField y, natField m, natField d with
    | some yn, some mn, some dn =>
      if y.length = 4 ∧ m.length = 2 ∧ d.length = 2 ∧
          1 ≤ mn ∧ mn ≤ 12 ∧ 1 ≤ dn ∧ dn ≤ 31 then
        some ⟨yn, mn, dn⟩
      else none
    | _, _, _ => none
  | _ => none

/-- A persisted Trip row.  The source stores `new Date(startDate)` and
`new Date(endDate)`; a row only ever holds valid dates, because the store
rejects invalid ones at write time. -/
structure Trip where
  id : Nat
  title : String
  destination : String
  startDate : JsDate
  endDate : JsDate
  budget : Int
  vibe : String
  planJson : PlanJson
  userId : String
deriving Repr, DecidableEq

/-- The relational store: the existing user ids, the trip rows in insertion
order, and the id the next created row receives. -/
structure DB where
  users : List String
  trips : List Trip
  nextId : Nat
deriving Repr, DecidableEq

/-- The `data` object handed to `prisma.trip.create`, holding the possibly
invalid Date values the handler computed with `new Date(...)`. -/
structure TripData where
  title : String
  destination : String
  startDate : Option JsDate
  endDate : Option JsDate
  budget : Int
  vibe : String
  planJson : PlanJson
  userId : String
deriving Repr, DecidableEq

/-- The row the store materializes from create data, under a fresh id, once
both dates proved valid. -/
def materialize (id : Nat) (d : TripData) (sd ed : JsDate) : Trip :=
  ⟨id, d.title, d.destination, sd, ed, d.budget, d.vibe,
   d.planJson, d.userId⟩

/-- `prisma.trip.create` with `user: { connect: { id: userId } }`: rejects
when the database fails, when either Date argument is an Invalid Date (the
client refuses to serialize it), or when the connected user id does not
exist (a foreign-key violation); otherwise appends the new row and bumps
the id. -/
def tripCreate (dbFail : Bool) (db : DB) (d : TripData) :
    Except String (Trip × DB) :=
  if dbFail then .error "Database error"
  else
    match d.startDate, d.endDate with
    | some sd, some ed =>
      if db.users.contains d.userId then
        .ok (materialize db.nextId d sd ed,
             ⟨db.users, db.trips ++ [materialize db.nextId d sd ed],
              db.nextId + 1⟩)
      else .error "Foreign key constraint violated"
    | _, _ => .error "Invalid Date"

/-- `prisma.trip.findUnique({ where: { id } })`: rejects when the database
fails, otherwise returns the row with that id, if any. -/
def findUnique (dbFail : Bool) (db : DB) (id : Nat) :
    Except String (Option Trip) :=
  if dbFail then .error "Database error"
  else .ok (db.trips.find? (fun t => t.id == id))

/-- The responses the plan handler can produce. -/
inductive PlanResponse where
  | badRequest (fieldDetail : List String)
  | notFound (message : String)
  | created (trip : Trip)
  | serverError (message : String)
deriving Repr, DecidableEq

/-- The HTTP status code of each plan-handler response. -/
def PlanResponse.status : PlanResponse → Nat
  | .badRequest _ => 400
  | .notFound _ => 404
  | .created _ => 201
  | .serverError _ => 500

/-- What handling one plan request produces: the HTTP response, the store
afterwards, and the outbound HTTP calls issued. -/
structure HandlerOut where
  response : PlanResponse
  store : DB
  calls : List Call
deriving Repr, DecidableEq

/-- The 404 message of the plan handler, naming the requested destination. -/
def notFoundMessage (destination : String) : String :=
  "Could not find coordinates for \"" ++ destination ++
    "\". Try a bigger city name."

/-- The restaurants query: 5 km radius, restaurant/cafe categories, limit 12. -/
def restaurantParams (geo : GeoTop) : PlacesParams :=
  ⟨geo.longitude, geo.latitude, 5000, "catering.restaurant,catering.cafe", 12⟩

/-- The attractions query: 8 km radius, attraction/sights categories, limit 12. -/
def attractionParams (geo : GeoTop) : PlacesParams :=
  ⟨geo.longitude, geo.latitude, 8000, "tourism.attraction,tourism.sights", 12⟩

/-- Step 5 of the orchestration: the assembled plan document. -/
def buildPlanJson (input : PlanInput) (geo : GeoTop) (w : Weather)
    (restaurants attractions : List PlaceRec) : PlanJson :=
  { destination :=
      ⟨input.destination, geo.name ++ ", " ++ geo.country,
       geo.latitude, geo.longitude, geo.timezone⟩
    trip := ⟨input.startDate, input.endDate, input.budget, input.vibe⟩
    weatherDaily := w
    restaurants := restaurants
    attractions := attractions
    summary :=
      "A " ++ input.vibe ++ " trip to " ++ geo.name ++ " within $" ++
        toString input.budget ++ ". Includes weather + nearby places (MVP)."
    nextIdeas :=
      ["Add Place Details endpoint (click a place card - details)",
       "Add caching (Redis) so repeated searches are fast",
       "Add pagination + category filters in UI"] }

/-- The create data of the plan handler: title and destination come from the
geocoder-resolved name, the dates are `new Date(startDate)` and
`new Date(endDate)` applied to the validated strings, budget and vibe come
from the validated input. -/
def planTripData (input : PlanInput) (geo : GeoTop) (w : Weather)
    (restaurants attractions : List PlaceRec) : TripData :=
  ⟨geo.name ++ " trip", geo.name, jsNewDate input.startDate,
   jsNewDate input.endDate, input.budget, input.vibe,
   buildPlanJson input geo w restaurants attractions, input.userId⟩

/-- POST /api/trips/plan: validate, geocode, fetch weather, fetch the two
place buckets, assemble the plan, persist the trip; every thrown error is
caught and returned as a 500 carrying the error message. -/
def planTripHandler (env : Env) (db : DB) (body : ReqBody) : HandlerOut :=
  match safeParse body with
  | .error errs => ⟨.badRequest errs, db, []⟩
  | .ok input =>
    match geocodeCity env input.destination with
    | (.error msg, gc) => ⟨.serverError msg, db, gc⟩
    | (.ok none, gc) => ⟨.notFound (notFoundMessage input.destination), db, gc⟩
    | (.ok (some geo), gc) =>
      match fetchWeather env geo.latitude geo.longitude geo.timezone with
      | (.error msg, wc) => ⟨.serverError msg, db, gc ++ wc⟩
      | (.ok w, wc) =>
        match fetchPlaces env.apiKey (restaurantParams geo)
            (env.placesResp (restaurantParams geo)) with
        | (.error msg, rc) => ⟨.serverError msg, db, gc ++ wc ++ rc⟩
        | (.ok restaurants, rc) =>
          match fetchPlaces env.apiKey (attractionParams geo)
              (env.placesResp (attractionParams geo)) with
          | (.error msg, ac) => ⟨.serverError msg, db, gc ++ wc ++ rc ++ ac⟩
          | (.ok attractions, ac) =>
            match tripCreate env.dbFail db
                (planTripData input geo w restaurants attractions) with
            | .error msg => ⟨.serverError msg, db, gc ++ wc ++ rc ++ ac⟩
            | .ok td => ⟨.created td.1, td.2, gc ++ wc ++ rc ++ ac⟩

/-- The responses the get-trip handler can produce on its own. -/
inductive GetResponse where
  | notFound
  | okTrip (trip : Trip)
deriving Repr, DecidableEq

/-- GET /api/trips/:id.  The handler has no try/catch: a rejected store
lookup propagates out of the handler (the `Except.error` case) instead of
being turned into a response. -/
def getTripHandler (dbFail : Bool) (db : DB) (id : Nat) :
    Except String GetResponse :=
  match findUnique dbFail db id with
  | .error e => .error e
  | .ok none => .ok .notFound
  | .ok (some t) => .ok (.okTrip t)

/-- Whether a get-trip outcome delivers a response to the caller at all. -/
def producesResponse : Except String GetResponse → Bool
  | .ok _ => true
  | .error _ => false

/-- Modelled from the spec: the `GET /api/trips?userId=...` route itself is
not among the provided backend sources (only its frontend caller
`listTrips` is); per the spec it returns "the array of trip records for
that user", filtered from the store by the given userId in insertion
order. -/
def listTripsHandler (db : DB) (userId : String) : List Trip :=
  db.trips.filter (fun t => t.userId == userId)

/-- The trip row a fully successful plan request appends to the store. -/
def successTrip (db : DB) (input : PlanInput) (geo : GeoTop)
    (draw : Option DailyRaw) (fr fa : Option (List Feature))
    (sd ed : JsDate) : Trip :=
  materialize db.nextId
    (planTripData input geo (dailyOf draw)
      ((fr.getD []).map normalizeFeature) ((fa.getD []).map normalizeFeature))
    sd ed

/-- The four outbound calls of a fully successful plan request, in order. -/
def planCalls (input : PlanInput) (geo : GeoTop) : List Call :=
  [.geocodeReq input.destination,
   .weatherReq geo.latitude geo.longitude (orFalsy geo.timezone "auto"),
   .placesReq (restaurantParams geo),
   .placesReq (attractionParams geo)]

/-- The validation failure modes the spec names: empty userId, destination
shorter than 2 characters, either date string shorter than 8 characters,
budget not a positive integer, or a vibe outside the enumeration. -/
def hasValidationFailure (b : ReqBody) : Prop :=
  b.userId = some "" ∨
  (∃ d, b.destination = some d ∧ d.length < 2) ∨
  (∃ s, b.startDate = some s ∧ s.length < 8) ∨
  (∃ e, b.endDate = some e ∧ e.length < 8) ∨
  (∃ q, b.budget = some q ∧ (q.den ≠ 1 ∨ q ≤ 0)) ∨
  (∃ v, b.vibe = some v ∧ v ∉ vibes)

/-- A concrete geocoder match: the resolved name differs from the literal
query string the test bodies send ("amsterdam"). -/
def okGeo : GeoTop := ⟨"Amsterdam", "Netherlands", 52, 4, some "Europe/Amsterdam"⟩

/-- A concrete daily forecast payload. -/
def okDaily : DailyRaw := ⟨some ["2026-02-10"], some [5], some [1], some [0]⟩

/-- An environment in which every upstream call and the store succeed. -/
def okEnv : Env :=
  ⟨fun _ => .ok (some [okGeo]), fun _ _ _ => .ok (some okDaily),
   fun _ => .ok (some []), some "demo-key", false⟩

/-- An environment whose geocoder finds no match. -/
def noMatchEnv : Env := { okEnv with geocodeResp := fun _ => .ok (some []) }

/-- An environment whose database fails. -/
def dbFailEnv : Env := { okEnv with dbFail := true }

/-- A store holding one user and no trips. -/
def demoDB : DB := ⟨["user-1"], [], 0⟩

/-- A store holding nothing. -/
def emptyDB : DB := ⟨[], [], 0⟩

/-- A well-formed plan request body. -/
def goodBody : ReqBody :=
  ⟨some "user-1", some "amsterdam", some "2026-02-10", some "2026-02-14",
   some 1200, some "techno"⟩

/-- A body failing validation: the destination has fewer than 2 characters. -/
def shortDestBody : ReqBody :=
  ⟨some "user-1", some "A", some "2026-02-10", some "2026-02-14",
   some 1200, some "techno"⟩

/-- A body whose endDate is not a parseable calendar date and does not
follow its startDate, while both pass the length-8 check. -/
def swappedDatesBody : ReqBody :=
  ⟨some "user-1", some "amsterdam", some "2026-07-14", some "not-a-date",
   some 1200, some "techno"⟩

/-- A body whose two dates are both parseable but in reversed order: the
endDate precedes the startDate. -/
def reversedDatesBody : ReqBody :=
  ⟨some "user-1", some "amsterdam", some "2026-07-14", some "2026-07-10",
   some 1200, some "techno"⟩

/-- The parsed form of goodBody. -/
def goodInput : PlanInput :=
  ⟨"user-1", "amsterdam", "2026-02-10", "2026-02-14", 1200, "techno"⟩

/-- A feature whose name property is present but empty. -/
def emptyNameProps : FeatureProps :=
  { emptyProps with name := some "", address_line1 := some "1 Main St" }

/-- The feature wrapping emptyNameProps. -/
def emptyNameFeature : Feature := ⟨some emptyNameProps, some []⟩

/-- A feature with no name but a first address line. -/
def cafeProps : FeatureProps := { emptyProps with address_line1 := some "Cafe X" }

/-- The feature wrapping cafeProps. -/
def cafeFeature : Feature := ⟨some cafeProps, some []⟩

theorem check_ite_nil (c : Bool) (s : String) :
    ((if c then ([] : List String) else [s]) = []) ↔ c = true := by
  cases c <;> simp

theorem fieldErrors_eq_nil_iff (b : ReqBody) :
    fieldErrors b = [] ↔
      (checkUserId b = true ∧ checkDestination b = true ∧
       checkStartDate b = true ∧ checkEndDate b = true ∧
       checkBudget b = true ∧ checkVibe b = true) := by
  simp only [fieldErrors, List.append_eq_nil, check_ite_nil]
  tauto

/-- Evaluation of the plan handler when every step succeeds (in particular
both date strings parse to valid Dates). -/
theorem plan_success (env : Env) (db : DB) (body : ReqBody) (input : PlanInput)
    (grs : Option (List GeoTop)) (geo : GeoTop) (k : String)
    (draw : Option DailyRaw) (fr fa : Option (List Feature)) (sd ed : JsDate)
    (hp : safeParse body = .ok input)
    (hg1 : env.geocodeResp input.destination = .ok grs)
    (hg2 : (grs.getD []).head? = some geo)
    (hk : env.apiKey = some k)
    (hw : env.weatherResp geo.latitude geo.longitude
            (orFalsy geo.timezone "auto") = .ok draw)
    (hr : env.placesResp (restaurantParams geo) = .ok fr)
    (ha : env.placesResp (attractionParams geo) = .ok fa)
    (hdb : env.dbFail = false)
    (hsd : jsNewDate input.startDate = some sd)
    (hed : jsNewDate input.endDate = some ed)
    (hu : db.users.contains input.userId = true) :
    planTripHandler env db body =
      ⟨.created (successTrip db input geo draw fr fa sd ed),
       ⟨db.users, db.trips ++ [successTrip db input geo draw fr fa sd ed],
        db.nextId + 1⟩,
       planCalls input geo⟩ := by
  have hgeo : geocodeCity env input.destination =
      (.ok (some geo), [.geocodeReq input.destination]) := by
    simp [geocodeCity, hg1, hg2]
  have hw2 : fetchWeather env geo.latitude geo.longitude geo.timezone =
      (.ok (dailyOf draw),
       [.weatherReq geo.latitude geo.longitude (orFalsy geo.timezone "auto")]) := by
    simp [fetchWeather, hw]
  have hr2 : fetchPlaces env.apiKey (restaurantParams geo)
      (env.placesResp (restaurantParams geo)) =
      (.ok ((fr.getD []).map normalizeFeature),
       [.placesReq (restaurantParams geo)]) := by
    simp [fetchPlaces, hk, hr]
  have ha2 : fetchPlaces env.apiKey (attractionParams geo)
      (env.placesResp (attractionParams geo)) =
      (.ok ((fa.getD []).map normalizeFeature),
       [.placesReq (attractionParams geo)]) := by
    simp [fetchPlaces, hk, ha]
  have hu2 : input.userId ∈ db.users := by simpa using hu
  simp [planTripHandler, hp, hgeo, hw2, hr2, ha2, tripCreate, hdb,
    planTripData, hsd, hed, hu2, successTrip, planCalls]

/-- Claim C1: the list-trips read operation returns exactly the trip records
belonging to the given userId, as a subsequence of the store (insertion
order preserved). -/
theorem listTrips_returns_user_trips (db : DB) (u : String) :
    (∀ t, t ∈ listTripsHandler db u ↔ t ∈ db.trips ∧ t.userId = u) ∧
    List.Sublist (listTripsHandler db u) db.trips := by
  refine ⟨fun t => ?_, List.filter_sublist _⟩
  simp [listTripsHandler]

/-- Claim C2: a plan request whose body fails validation in one of the
listed ways gets a 400 response carrying the field-level detail, while no
outbound call is issued and the store is unchanged. -/
theorem plan_invalid_body_400 (env : Env) (db : DB) (b : ReqBody)
    (h : hasValidationFailure b) :
    planTripHandler env db b = ⟨.badRequest (fieldErrors b), db, []⟩ ∧
    fieldErrors b ≠ [] ∧
    (PlanResponse.badRequest (fieldErrors b)).status = 400 := by
  have hne : fieldErrors b ≠ [] := by
    intro hnil
    rw [fieldErrors_eq_nil_iff] at hnil
    obtain ⟨h1, h2, h3, h4, h5, h6⟩ := hnil
    rcases h with hx | ⟨d, hx, hlen⟩ | ⟨s, hx, hlen⟩ | ⟨e, hx, hlen⟩ |
        ⟨q, hx, hq⟩ | ⟨v, hx, hv⟩
    · simp [checkUserId, hx] at h1
    · simp [checkDestination, hx] at h2; omega
    · simp [checkStartDate, hx] at h3; omega
    · simp [checkEndDate, hx] at h4; omega
    · simp [checkBudget, hx] at h5
      rcases hq with hq | hq
      · exact hq h5.1
      · exact absurd h5.2 (not_lt.mpr hq)
    · simp [checkVibe, hx] at h6
      exact hv h6
  have hsp : safeParse b = .error (fieldErrors b) := by
    simp only [safeParse, if_neg hne]
  exact ⟨by simp [planTripHandler, hsp], hne, rfl⟩

/-- Claim C2 witness: a body whose destination is a single character. -/
theorem plan_invalid_body_400_witness :
    hasValidationFailure shortDestBody ∧
    planTripHandler okEnv demoDB shortDestBody =
      ⟨.badRequest ["destination"], demoDB, []⟩ := by
  have hv : hasValidationFailure shortDestBody :=
    Or.inr (Or.inl ⟨"A", rfl, by decide⟩)
  have h := plan_invalid_body_400 okEnv demoDB shortDestBody hv
  have he : fieldErrors shortDestBody = ["destination"] := by decide
  exact ⟨hv, by rw [← he]; exact h.1⟩

/-- Claim C4: a valid request whose destination the geocoder cannot resolve
gets a 404 whose message names the requested destination; only the geocoding
call was issued and the store is unchanged. -/
theorem plan_unresolvable_404 (env : Env) (db : DB) (b : ReqBody)
    (input : PlanInput) (grs : Option (List GeoTop))
    (hp : safeParse b = .ok input)
    (hg1 : env.geocodeResp input.destination = .ok grs)
    (hg2 : (grs.getD []).head? = none) :
    planTripHandler env db b =
      ⟨.notFound ("Could not find coordinates for \"" ++ input.destination ++
          "\". Try a bigger city name."),
       db, [.geocodeReq input.destination]⟩ ∧
    (PlanResponse.notFound (notFoundMessage input.destination)).status = 404 := by
  have hgeo : geocodeCity env input.destination =
      (.ok none, [.geocodeReq input.destination]) := by
    simp [geocodeCity, hg1, hg2]
  exact ⟨by simp [planTripHandler, hp, hgeo, notFoundMessage], rfl⟩

/-- Claim C4 witness: the geocoder returns an empty result list. -/
theorem plan_unresolvable_404_witness :
    planTripHandler noMatchEnv demoDB goodBody =
      ⟨.notFound ("Could not find coordinates for \"" ++ "amsterdam" ++
          "\". Try a bigger city name."),
       demoDB, [.geocodeReq "amsterdam"]⟩ :=
  (plan_unresolvable_404 noMatchEnv demoDB goodBody goodInput (some [])
    rfl rfl rfl).1

/-- Claim C5 counterexample: the get-trip-by-id handler has no try/catch, so
when the store lookup fails the error escapes the handler and no response
of any kind (in particular no 500 JSON echoing the message) is produced. -/
theorem getTrip_uncaught_db_failure :
    getTripHandler true emptyDB 0 = .error "Database error" ∧
    producesResponse (getTripHandler true emptyDB 0) = false := by
  exact ⟨rfl, rfl⟩

/-- Claim C5 amended: the plan-trip handler surfaces a database failure as a
generic 500 with the underlying message echoed, but the get-trip-by-id
handler does not catch a store-lookup failure: the error propagates out of
the handler and it produces no response. -/
theorem db_failure_surfacing (env : Env) (db db2 : DB) (b : ReqBody)
    (input : PlanInput) (grs : Option (List GeoTop)) (geo : GeoTop)
    (k : String) (draw : Option DailyRaw) (fr fa : Option (List Feature))
    (i : Nat)
    (hp : safeParse b = .ok input)
    (hg1 : env.geocodeResp input.destination = .ok grs)
    (hg2 : (grs.getD []).head? = some geo)
    (hk : env.apiKey = some k)
    (hw : env.weatherResp geo.latitude geo.longitude
            (orFalsy geo.timezone "auto") = .ok draw)
    (hr : env.placesResp (restaurantParams geo) = .ok fr)
    (ha : env.placesResp (attractionParams geo) = .ok fa)
    (hdb : env.dbFail = true) :
    (planTripHandler env db b).response = .serverError "Database error" ∧
    (PlanResponse.serverError "Database error").status = 500 ∧
    getTripHandler true db2 i = .error "Database error" ∧
    producesResponse (getTripHandler true db2 i) = false := by
  have hgeo : geocodeCity env input.destination =
      (.ok (some geo), [.geocodeReq input.destination]) := by
    simp [geocodeCity, hg1, hg2]
  have hw2 : fetchWeather env geo.latitude geo.longitude geo.timezone =
      (.ok (dailyOf draw),
       [.weatherReq geo.latitude geo.longitude (orFalsy geo.timezone "auto")]) := by
    simp [fetchWeather, hw]
  have hr2 : fetchPlaces env.apiKey (restaurantParams geo)
      (env.placesResp (restaurantParams geo)) =
      (.ok ((fr.getD []).map normalizeFeature),
       [.placesReq (restaurantParams geo)]) := by
    simp [fetchPlaces, hk, hr]
  have ha2 : fetchPlaces env.apiKey (attractionParams geo)
      (env.placesResp (attractionParams geo)) =
      (.ok ((fa.getD []).map normalizeFeature),
       [.placesReq (attractionParams geo)]) := by
    simp [fetchPlaces, hk, ha]
  refine ⟨?_, rfl, ?_, ?_⟩
  · simp [planTripHandler, hp, hgeo, hw2, hr2, ha2, tripCreate, hdb]
  · simp [getTripHandler, findUnique]
  · simp [getTripHandler, findUnique, producesResponse]

/-- Claim C5 amended witness. -/
theorem db_failure_surfacing_witness :
    (planTripHandler dbFailEnv demoDB goodBody).response =
      .serverError "Database error" ∧
    getTripHandler true demoDB 0 = .error "Database error" := by
  have h := db_failure_surfacing dbFailEnv demoDB demoDB goodBody goodInput
    (some [okGeo]) okGeo "demo-key" (some okDaily) (some []) (some []) 0
    rfl rfl (by decide) rfl rfl rfl rfl rfl
  exact ⟨h.1, h.2.2.1⟩

/-- Claim C6: on a fully successful run the response is 201 with the created
trip, the store gains exactly that row, and the row's destination is the
geocoder-resolved place name. -/
theorem plan_created_201_resolved_destination (env : Env) (db : DB)
    (b : ReqBody) (input : PlanInput) (grs : Option (List GeoTop))
    (geo : GeoTop) (k : String) (draw : Option DailyRaw)
    (fr fa : Option (List Feature)) (sd ed : JsDate)
    (hp : safeParse b = .ok input)
    (hg1 : env.geocodeResp input.destination = .ok grs)
    (hg2 : (grs.getD []).head? = some geo)
    (hk : env.apiKey = some k)
    (hw : env.weatherResp geo.latitude geo.longitude
            (orFalsy geo.timezone "auto") = .ok draw)
    (hr : env.placesResp (restaurantParams geo) = .ok fr)
    (ha : env.placesResp (attractionParams geo) = .ok fa)
    (hdb : env.dbFail = false)
    (hsd : jsNewDate input.startDate = some sd)
    (hed : jsNewDate input.endDate = some ed)
    (hu : db.users.contains input.userId = true) :
    ∃ t, planTripHandler env db b =
        ⟨.created t, ⟨db.users, db.trips ++ [t], db.nextId + 1⟩,
         planCalls input geo⟩ ∧
      (PlanResponse.created t).status = 201 ∧
      t.destination = geo.name := by
  exact ⟨successTrip db input geo draw fr fa sd ed,
    plan_success env db b input grs geo k draw fr fa sd ed
      hp hg1 hg2 hk hw hr ha hdb hsd hed hu, rfl, rfl⟩

/-- Claim C6 witness: the caller sent "amsterdam"; the stored destination is
the resolved "Amsterdam", not the literal input string. -/
theorem plan_created_201_witness :
    ∃ t, (planTripHandler okEnv demoDB goodBody).response = .created t ∧
      t.destination = "Amsterdam" ∧ t.destination ≠ "amsterdam" := by
  obtain ⟨t, h1, _, h3⟩ := plan_created_201_resolved_destination okEnv demoDB
    goodBody goodInput (some [okGeo]) okGeo "demo-key" (some okDaily)
    (some []) (some []) ⟨2026, 2, 10⟩ ⟨2026, 2, 14⟩
    rfl rfl (by decide) rfl rfl rfl rfl rfl (by decide) (by decide) rfl
  exact ⟨t, by rw [h1], h3.trans rfl, by rw [h3]; decide⟩

/-- Claim C7: with the places API key absent from the environment,
fetchPlaces raises the configuration error at once, whatever the service
would have answered, and issues no outbound request. -/
theorem fetchPlaces_missing_key (params : PlacesParams)
    (resp : Except Nat (Option (List Feature))) :
    fetchPlaces none params resp =
      (.error "Missing GEOAPIFY_API_KEY in backend/.env", []) := rfl

/-- Claim C8 counterexample: a feature whose name property is present but
empty is normalized to its first address line, not to its (present) name. -/
theorem normalize_present_empty_name :
    emptyNameFeature.properties.bind FeatureProps.name = some "" ∧
    (normalizeFeature emptyNameFeature).name = "1 Main St" ∧
    ("1 Main St" : String) ≠ "" := by
  refine ⟨rfl, rfl, by decide⟩

/-- Claim C8 amended: the normalized name is the feature's name when that is
present and non-empty, else its first address line when that is present and
non-empty, else "Unknown place" (JS falsy fallback); categories default to
the empty list when absent and distanceMeters to null when absent. -/
theorem normalize_feature_defaults (f : Feature) (p : FeatureProps)
    (h : f.properties = some p) :
    (∀ n, p.name = some n → n ≠ "" → (normalizeFeature f).name = n) ∧
    ((p.name = none ∨ p.name = some "") →
      (∀ a, p.address_line1 = some a → a ≠ "" → (normalizeFeature f).name = a) ∧
      ((p.address_line1 = none ∨ p.address_line1 = some "") →
        (normalizeFeature f).name = "Unknown place")) ∧
    (∀ cs, p.categories = some cs → (normalizeFeature f).categories = cs) ∧
    (p.categories = none → (normalizeFeature f).categories = []) ∧
    (p.distance = none → (normalizeFeature f).distanceMeters = none) := by
  refine ⟨?_, ?_, ?_, ?_, ?_⟩
  · intro n hn hne
    simp [normalizeFeature, h, orFalsy, hn, hne]
  · intro hname
    constructor
    · intro a haddr hane
      rcases hname with h0 | h0 <;>
        simp [normalizeFeature, h, orFalsy, h0, haddr, hane]
    · intro haddr
      rcases hname with h0 | h0 <;> rcases haddr with h1 | h1 <;>
        simp [normalizeFeature, h, orFalsy, h0, h1]
  · intro cs hcs; simp [normalizeFeature, h, hcs]
  · intro hcs; simp [normalizeFeature, h, hcs]
  · intro hd; simp [normalizeFeature, h, hd]

/-- Claim C8 amended witness: a feature with no name and address line
"Cafe X", no categories and no distance. -/
theorem normalize_feature_defaults_witness :
    cafeFeature.properties = some cafeProps ∧
    (normalizeFeature cafeFeature).name = "Cafe X" ∧
    (normalizeFeature cafeFeature).categories = [] ∧
    (normalizeFeature cafeFeature).distanceMeters = none := by
  have h := normalize_feature_defaults cafeFeature cafeProps rfl
  exact ⟨rfl, (h.2.1 (Or.inl rfl)).1 "Cafe X" rfl (by decide),
    h.2.2.2.1 rfl, h.2.2.2.2 rfl⟩

/-- Claim C9: plan-trip is not idempotent: running the identical successful
request twice appends two trip rows with distinct ids. -/
theorem plan_not_idempotent (env : Env) (db : DB) (b : ReqBody)
    (input : PlanInput) (grs : Option (List GeoTop)) (geo : GeoTop)
    (k : String) (draw : Option DailyRaw) (fr fa : Option (List Feature))
    (sd ed : JsDate)
    (hp : safeParse b = .ok input)
    (hg1 : env.geocodeResp input.destination = .ok grs)
    (hg2 : (grs.getD []).head? = some geo)
    (hk : env.apiKey = some k)
    (hw : env.weatherResp geo.latitude geo.longitude
            (orFalsy geo.timezone "auto") = .ok draw)
    (hr : env.placesResp (restaurantParams geo) = .ok fr)
    (ha : env.placesResp (attractionParams geo) = .ok fa)
    (hdb : env.dbFail = false)
    (hsd : jsNewDate input.startDate = some sd)
    (hed : jsNewDate input.endDate = some ed)
    (hu : db.users.contains input.userId = true) :
    ∃ t1 t2,
      (planTripHandler env db b).response = .created t1 ∧
      (planTripHandler env (planTripHandler env db b).store b).response =
        .created t2 ∧
      ((planTripHandler env (planTripHandler env db b).store b).store).trips =
        db.trips ++ [t1, t2] ∧
      t1.id ≠ t2.id := by
  have h1 := plan_success env db b input grs geo k draw fr fa sd ed
    hp hg1 hg2 hk hw hr ha hdb hsd hed hu
  have hu1 : (DB.mk db.users
      (db.trips ++ [successTrip db input geo draw fr fa sd ed])
      (db.nextId + 1)).users.contains input.userId = true := hu
  have h2 := plan_success env
    ⟨db.users, db.trips ++ [successTrip db input geo draw fr fa sd ed],
     db.nextId + 1⟩
    b input grs geo k draw fr fa sd ed hp hg1 hg2 hk hw hr ha hdb hsd hed hu1
  refine ⟨successTrip db input geo draw fr fa sd ed,
    successTrip ⟨db.users,
      db.trips ++ [successTrip db input geo draw fr fa sd ed],
      db.nextId + 1⟩ input geo draw fr fa sd ed, ?_, ?_, ?_, ?_⟩
  · rw [h1]
  · rw [h1]; rw [show (HandlerOut.mk
      (.created (successTrip db input geo draw fr fa sd ed))
      ⟨db.users, db.trips ++ [successTrip db input geo draw fr fa sd ed],
       db.nextId + 1⟩
      (planCalls input geo)).store =
      ⟨db.users, db.trips ++ [successTrip db input geo draw fr fa sd ed],
       db.nextId + 1⟩
      from rfl, h2]
  · rw [h1]; simp [h2]
  · simp [successTrip, materialize]

/-- Claim C9 witness: the same request issued twice against the demo store
creates rows with ids 0 and 1. -/
theorem plan_not_idempotent_witness :
    ∃ t1 t2,
      (planTripHandler okEnv demoDB goodBody).response = .created t1 ∧
      (planTripHandler okEnv (planTripHandler okEnv demoDB goodBody).store
          goodBody).response = .created t2 ∧
      ((planTripHandler okEnv (planTripHandler okEnv demoDB goodBody).store
          goodBody).store).trips = demoDB.trips ++ [t1, t2] ∧
      t1.id ≠ t2.id :=
  plan_not_idempotent okEnv demoDB goodBody goodInput (some [okGeo]) okGeo
    "demo-key" (some okDaily) (some []) (some []) ⟨2026, 2, 10⟩ ⟨2026, 2, 14⟩
    rfl rfl (by decide) rfl rfl rfl rfl rfl (by decide) (by decide) rfl

/-- Claim C10: validation imposes no ordering or well-formedness relation
between the two dates: any two strings of length at least 8 pass, whatever
their order or parseability.  On a successful run the created trip is built
from exactly those values: the stored dates are `new Date` of the two
strings and the plan document echoes the strings verbatim.  When either
string is no parseable calendar date, the request cannot succeed: the write
rejects the Invalid Date, yielding a 500 and no trip. -/
theorem validation_ignores_date_semantics (b : ReqBody) (u d s e : String)
    (q : Rat) (v : String)
    (hbu : b.userId = some u) (hul : 1 ≤ u.length)
    (hbd : b.destination = some d) (hdl : 2 ≤ d.length)
    (hbs : b.startDate = some s) (hsl : 8 ≤ s.length)
    (hbe : b.endDate = some e) (hel : 8 ≤ e.length)
    (hbq : b.budget = some q) (hqd : q.den = 1) (hqp : 0 < q)
    (hbv : b.vibe = some v) (hvv : v ∈ vibes) :
    safeParse b = .ok ⟨u, d, s, e, q.num, v⟩ ∧
    (∀ (env : Env) (db : DB) (grs : Option (List GeoTop)) (geo : GeoTop)
      (k : String) (draw : Option DailyRaw) (fr fa : Option (List Feature))
      (sd ed : JsDate),
      jsNewDate s = some sd →
      jsNewDate e = some ed →
      env.geocodeResp d = .ok grs →
      (grs.getD []).head? = some geo →
      env.apiKey = some k →
      env.weatherResp geo.latitude geo.longitude
        (orFalsy geo.timezone "auto") = .ok draw →
      env.placesResp (restaurantParams geo) = .ok fr →
      env.placesResp (attractionParams geo) = .ok fa →
      env.dbFail = false →
      db.users.contains u = true →
      ∃ t, (planTripHandler env db b).response = .created t ∧
        t.startDate = sd ∧ t.endDate = ed ∧
        t.planJson.trip.startDate = s ∧ t.planJson.trip.endDate = e) ∧
    (∀ (env : Env) (db : DB) (grs : Option (List GeoTop)) (geo : GeoTop)
      (k : String) (draw : Option DailyRaw) (fr fa : Option (List Feature)),
      (jsNewDate s = none ∨ jsNewDate e = none) →
      env.geocodeResp d = .ok grs →
      (grs.getD []).head? = some geo →
      env.apiKey = some k →
      env.weatherResp geo.latitude geo.longitude
        (orFalsy geo.timezone "auto") = .ok draw →
      env.placesResp (restaurantParams geo) = .ok fr →
      env.placesResp (attractionParams geo) = .ok fa →
      env.dbFail = false →
      (planTripHandler env db b).response = .serverError "Invalid Date" ∧
      (planTripHandler env db b).store = db) := by
  have hfe : fieldErrors b = [] := by
    rw [fieldErrors_eq_nil_iff]
    refine ⟨?_, ?_, ?_, ?_, ?_, ?_⟩ <;>
      simp [checkUserId, checkDestination, checkStartDate, checkEndDate,
        checkBudget, checkVibe, hbu, hbd, hbs, hbe, hbq, hbv,
        hul, hdl, hsl, hel, hqd, hqp, hvv]
  have hsp : safeParse b = .ok ⟨u, d, s, e, q.num, v⟩ := by
    simp [safeParse, hfe, hbu, hbd, hbs, hbe, hbq, hbv]
  refine ⟨hsp, ?_, ?_⟩
  · intro env db grs geo k draw fr fa sd ed hpsd hped hg1 hg2 hk hw hr ha
      hdb hu
    have h := plan_success env db b ⟨u, d, s, e, q.num, v⟩ grs geo k draw
      fr fa sd ed hsp hg1 hg2 hk hw hr ha hdb hpsd hped hu
    exact ⟨successTrip db ⟨u, d, s, e, q.num, v⟩ geo draw fr fa sd ed,
      by rw [h], rfl, rfl, rfl, rfl⟩
  · intro env db grs geo k draw fr fa hbad hg1 hg2 hk hw hr ha hdb
    have hgeo : geocodeCity env d = (.ok (some geo), [.geocodeReq d]) := by
      simp [geocodeCity, hg1, hg2]
    have hw2 : fetchWeather env geo.latitude geo.longitude geo.timezone =
        (.ok (dailyOf draw),
         [.weatherReq geo.latitude geo.longitude
            (orFalsy geo.timezone "auto")]) := by
      simp [fetchWeather, hw]
    have hr2 : fetchPlaces env.apiKey (restaurantParams geo)
        (env.placesResp (restaurantParams geo)) =
        (.ok ((fr.getD []).map normalizeFeature),
         [.placesReq (restaurantParams geo)]) := by
      simp [fetchPlaces, hk, hr]
    have ha2 : fetchPlaces env.apiKey (attractionParams geo)
        (env.placesResp (attractionParams geo)) =
        (.ok ((fa.getD []).map normalizeFeature),
         [.placesReq (attractionParams geo)]) := by
      simp [fetchPlaces, hk, ha]
    have hout : planTripHandler env db b =
        ⟨.serverError "Invalid Date", db,
         planCalls ⟨u, d, s, e, q.num, v⟩ geo⟩ := by
      rcases hbad with hb | hb
      · simp [planTripHandler, hsp, hgeo, hw2, hr2, ha2, tripCreate, hdb,
          planTripData, planCalls, hb]
      · rcases hsv : jsNewDate s with _ | sd <;>
          simp [planTripHandler, hsp, hgeo, hw2, hr2, ha2, tripCreate, hdb,
            planTripData, planCalls, hb, hsv]
    exact ⟨by rw [hout], by rw [hout]⟩

/-- Claim C10 witness: endDate "not-a-date" passes validation, but the write
then rejects the Invalid Date with a 500 and no trip; the reversed parseable
pair 2026-07-14 / 2026-07-10 also passes and the created trip is built from
exactly those values. -/
theorem validation_ignores_date_semantics_witness :
    safeParse swappedDatesBody =
      .ok ⟨"user-1", "amsterdam", "2026-07-14", "not-a-date", (1200 : Rat).num,
        "techno"⟩ ∧
    (planTripHandler okEnv demoDB swappedDatesBody).response =
      .serverError "Invalid Date" ∧
    (planTripHandler okEnv demoDB swappedDatesBody).store = demoDB ∧
    (∃ t, (planTripHandler okEnv demoDB reversedDatesBody).response =
        .created t ∧
      t.startDate = ⟨2026, 7, 14⟩ ∧ t.endDate = ⟨2026, 7, 10⟩ ∧
      t.planJson.trip.startDate = "2026-07-14" ∧
      t.planJson.trip.endDate = "2026-07-10") := by
  have h1 := validation_ignores_date_semantics swappedDatesBody "user-1"
    "amsterdam" "2026-07-14" "not-a-date" 1200 "techno"
    rfl (by decide) rfl (by decide) rfl (by decide) rfl (by decide)
    rfl (by decide) (by decide) rfl (by decide)
  have h2 := validation_ignores_date_semantics reversedDatesBody "user-1"
    "amsterdam" "2026-07-14" "2026-07-10" 1200 "techno"
    rfl (by decide) rfl (by decide) rfl (by decide) rfl (by decide)
    rfl (by decide) (by decide) rfl (by decide)
  have h3 := h1.2.2 okEnv demoDB (some [okGeo]) okGeo "demo-key"
    (some okDaily) (some []) (some []) (Or.inr (by decide)) rfl (by decide)
    rfl rfl rfl rfl rfl
  exact ⟨h1.1, h3.1, h3.2,
    h2.2.1 okEnv demoDB (some [okGeo]) okGeo "demo-key" (some okDaily)
      (some []) (some []) ⟨2026, 7, 14⟩ ⟨2026, 7, 10⟩ (by decide) (by decide)
      rfl (by decide) rfl rfl rfl rfl rfl rfl⟩

end TripPlanner
